import Mathlib

/-!
Shallow embedding of the ticket-reservation server (files `src/database.h`,
`src/src/database.cpp`, `src/src/database.h`, `src/src/common.h`,
`src/ticket_server.cpp`).  Machine integers are modelled as `Nat` with an
explicit `% 2 ^ w` exactly where the C++ fixed-width arithmetic can wrap;
`char` values are modelled as `Nat` byte values.  The `std::unordered_map`
of reservations is modelled as an association list (the code never iterates
it, so iteration order is immaterial); `std::queue` is a `List` whose head
is the queue front.  Wall-clock time (`get_seconds_from_epoch`) is passed
in as an explicit `now : Nat` parameter.
-/

set_option maxHeartbeats 1000000
set_option maxRecDepth 100000

/-- `TICKET_LEN` from `src/src/common.h`. -/
def TICKET_LEN : Nat := 7

/-- `MAX_CONTENT_SIZE` from `src/src/common.h`. -/
def MAX_CONTENT_SIZE : Nat := 65507

/-- `MAX_TICKET_COUNT = (MAX_CONTENT_SIZE - 1 - 4 - 2) / TICKET_LEN` from `src/src/common.h`. -/
def MAX_TICKET_COUNT : Nat := (MAX_CONTENT_SIZE - 1 - 4 - 2) / TICKET_LEN

/-- `COOKIE_LEN` from `src/src/database.h`. -/
def COOKIE_LEN : Nat := 48

/-- `MIN_RESERVATION_ID = 10e6` from `src/src/database.cpp` (value `10^7`). -/
def MIN_RESERVATION_ID : Nat := 10000000

/-- `MIN_COOKIE_CHAR` from `src/src/database.cpp`. -/
def MIN_COOKIE_CHAR : Nat := 33

/-- The 48 large primes `PRIMES` from `src/src/database.cpp`. -/
def PRIMES : List Nat :=
  [15485863,  49979687,  86028121,
   104395303, 122949829, 160481183,
   160481219, 198491317, 198491329,
   236887691, 256203161, 256203221,
   295075147, 295075153, 314606869,
   314606891, 334214459, 334214467,
   353868013, 353868019, 373587883,
   373587911, 393342739, 393342743,
   413158511, 413158523, 433024223,
   433024253, 452930459, 452930477,
   472882027, 472882049, 492876847,
   492876863, 512927357, 512927377,
   533000389, 533000401, 553105243,
   553105253, 573259391, 573259433,
   593441843, 593441861, 613651349,
   613651369, 633910099, 633910111]

/-- The 24 small primes `SMALL_PRIMES` from `src/src/database.cpp`. -/
def SMALL_PRIMES : List Nat :=
  [2, 3, 5, 7, 11, 13, 17, 19, 23, 29, 31, 37, 41,
   43, 47, 53, 59, 61, 67, 71, 73, 79, 83, 89]

/-- The error kinds of the exception hierarchy in `src/src/database.h`. -/
inductive DBError where
  | EventNotFound
  | ReservationNotFound
  | InvalidTicketCount
  | TicketShortage
  | TooManyTickets
  | InvalidReservationID
  | InvalidCookie
deriving DecidableEq

/-- `struct Event` from `src/src/database.h`: id, description and the mutable
(16-bit) available-ticket counter. -/
structure Event where
  event_id : Nat
  description : String
  ticket_count : Nat
deriving DecidableEq, Inhabited

/-- Byte `i` of the cookie computed by `Reservation::generate_cookie` in
`src/src/database.cpp`.  `reservation_id` is a `uint32_t`; in the second half
the C++ computes `(reservation_id + 1)` in 32-bit arithmetic (hence the
`% 2 ^ 32`) and then promotes to `uint64_t` to multiply by `PRIMES[i]`
(the product of a 32-bit value with the largest table entry fits in 64 bits,
so no further wrap occurs before the small-prime modulus is taken). -/
def cookieByte (reservation_id i : Nat) : Nat :=
  if i < COOKIE_LEN / 2 then
    reservation_id % SMALL_PRIMES.getD i 1 + MIN_COOKIE_CHAR
  else
    ((reservation_id + 1) % 2 ^ 32) * PRIMES.getD i 1 % SMALL_PRIMES.getD (i - COOKIE_LEN / 2) 1
      + MIN_COOKIE_CHAR

/-- `Reservation::generate_cookie` from `src/src/database.cpp`: the 48 cookie
bytes as a list. -/
def generate_cookie (reservation_id : Nat) : List Nat :=
  (List.range COOKIE_LEN).map (cookieByte reservation_id)

/-- `struct Reservation` from `src/src/database.h` (the value returned to the
caller of `make_reservation`). -/
structure Reservation where
  reservation_id : Nat
  event_id : Nat
  ticket_count : Nat
  cookie : List Nat
  expiration_time : Nat
deriving DecidableEq

/-- `Database::ReservationInfo` from `src/src/database.cpp`. -/
structure ReservationInfo where
  event_id : Nat
  ticket_count : Nat
  cookie : List Nat
  ticket_min : List Nat
  received : Bool
deriving DecidableEq

/-- `Database::ReservationTime` from `src/src/database.cpp`. -/
structure ReservationTime where
  reservation_id : Nat
  expiration_time : Nat
deriving DecidableEq

/-- `class Database` from `src/src/database.h`.  `reservations` is the
`unordered_map` as an association list, `reservation_queue` is the FIFO with
its head at the front. -/
structure Database where
  timeout : Nat
  events : List Event
  reservations : List (Nat × ReservationInfo)
  reservation_queue : List ReservationTime
  next_reservation_id : Nat
  base_ticket : List Nat
deriving DecidableEq

/-- `std::unordered_map::at` / lookup on the association list (first match). -/
def lookupRes : List (Nat × ReservationInfo) → Nat → Option ReservationInfo
  | [], _ => none
  | (k, v) :: rest, rid => if k = rid then some v else lookupRes rest rid

/-- `std::unordered_map::erase`: removes the (unique) entry with the key;
on an association list with at most one occurrence per key this is removal
of the first occurrence. -/
def eraseKey : List (Nat × ReservationInfo) → Nat → List (Nat × ReservationInfo)
  | [], _ => []
  | (k, v) :: rest, rid => if k = rid then rest else (k, v) :: eraseKey rest rid

/-- Number of entries carrying a given key (an `unordered_map` always has at
most one; arbitrary model states are constrained by hypotheses where needed). -/
def countKey : List (Nat × ReservationInfo) → Nat → Nat
  | [], _ => 0
  | (k, _) :: rest, rid => (if k = rid then 1 else 0) + countKey rest rid

/-- `std::unordered_map::emplace`: inserts only when the key is absent
(`Database::make_reservation` ignores the returned success flag). -/
def emplace (m : List (Nat × ReservationInfo)) (k : Nat) (v : ReservationInfo) :
    List (Nat × ReservationInfo) :=
  match lookupRes m k with
  | some _ => m
  | none => m ++ [(k, v)]

/-- The in-place `reservation.received = true;` of `Database::get_tickets`,
applied to the entry `at` found (the first occurrence of the key). -/
def setReceived : List (Nat × ReservationInfo) → Nat → List (Nat × ReservationInfo)
  | [], _ => []
  | (k, v) :: rest, rid =>
    if k = rid then (k, { v with received := true }) :: rest
    else (k, v) :: setReceived rest rid

/-- The lambda `to_int` inside `increase_ticket` (`src/src/database.cpp`):
`(c < 'A') ? c - '0' : c - 'A' + 10` on byte values. -/
def to_int (c : Nat) : Nat := if c < 65 then c - 48 else c - 65 + 10

/-- The lambda `to_char` inside `increase_ticket`:
`(x > 9) ? 'A' + x - 10 : '0' + x`. -/
def to_char (x : Nat) : Nat := if x > 9 then 65 + x - 10 else 48 + x

/-- One iteration of the `for` loop of `increase_ticket`: note the source
compares `value > offset` (strictly) with `offset = 36`, and increments the
raw byte `ticket[i + 1]` on carry.  `List.set` out of range is a no-op, which
stands in for the out-of-bounds write the C++ would perform on a carry out of
the last digit (overflow past `"ZZZZZZZ"`, out of scope per the spec). -/
def increase_step (acc : List Nat × Nat) (i : Nat) : List Nat × Nat :=
  let t := acc.1
  let value := acc.2 % 36 + to_int (t.getD i 0)
  let d := acc.2 / 36
  if value > 36 then
    ((t.set (i + 1) (t.getD (i + 1) 0 + 1)).set i (to_char (value - 36)), d)
  else
    (t.set i (to_char value), d)

/-- `increase_ticket` from `src/src/database.cpp`: adds `difference` to the
7-byte little-endian base-36 counter `ticket`, digit positions `0..6`. -/
def increase_ticket (ticket : List Nat) (difference : Nat) : List Nat :=
  ((List.range TICKET_LEN).foldl increase_step (ticket, difference)).1

/-- The loop body of `cmp_cookies` over the zipped byte pairs: returns at the
first mismatching pair (early exit, exactly as the source loop). -/
def cmpAux : List (Nat × Nat) → Bool
  | [] => true
  | p :: rest => if p.1 ≠ p.2 then false else cmpAux rest

/-- `cmp_cookies` from `src/src/database.cpp` (both cookies have
`COOKIE_LEN` bytes, so the zip covers all 48 loop iterations). -/
def cmp_cookies (cookie1 cookie2 : List Nat) : Bool :=
  cmpAux (cookie1.zip cookie2)

/-- Number of byte positions the `cmp_cookies` loop inspects before
returning: it stops at the first mismatch. -/
def cmpInspected : List (Nat × Nat) → Nat
  | [] => 0
  | p :: rest => if p.1 ≠ p.2 then 1 else 1 + cmpInspected rest

/-- `result[0] = ticket_min; result[i] = increase_ticket(result[i-1], 1)` —
the ticket list reconstruction in `Database::get_tickets`.  (The source never
calls it with count `0`: `make_reservation` rejects `ticket_count == 0`.) -/
def ticketsFrom (base : List Nat) : Nat → List (List Nat)
  | 0 => []
  | n + 1 => base :: ticketsFrom (increase_ticket base 1) n

/-- `Database::remove_reservation` from `src/src/database.cpp`: a missing key
is ignored; a `received` record is left untouched; otherwise the tickets are
returned to the event counter (16-bit addition, hence `% 2 ^ 16`) and the
record is erased.  `events[record.event_id]` is `std::vector::operator[]`,
well-defined only for an in-range event id (reachable states guarantee it);
`List.set`/`List.getD` out of range model the access as a no-op/default. -/
def remove_reservation (db : Database) (reservation_id : Nat) : Database :=
  match lookupRes db.reservations reservation_id with
  | none => db
  | some record =>
    if record.received then db
    else
      let ev := db.events.getD record.event_id default
      { db with
          events := db.events.set record.event_id
            { ev with ticket_count := (ev.ticket_count + record.ticket_count) % 2 ^ 16 },
          reservations := eraseKey db.reservations reservation_id }

/-- The `while` loop of `Database::clean_queue`, with fuel: each iteration
pops the front of the queue, so the initial queue length bounds the number of
iterations. -/
def cleanLoop (now : Nat) : Nat → Database → Database
  | 0, db => db
  | fuel + 1, db =>
    match db.reservation_queue with
    | [] => db
    | top :: rest =>
      if top.expiration_time < now then
        cleanLoop now fuel
          { remove_reservation db top.reservation_id with reservation_queue := rest }
      else db

/-- `Database::clean_queue` from `src/src/database.cpp`, with the current
time passed explicitly. -/
def clean_queue (db : Database) (now : Nat) : Database :=
  cleanLoop now db.reservation_queue.length db

/-- `Database::make_reservation` from `src/src/database.cpp`.  The error
checks appear in source order; `get_reservation_id` throws
`InvalidReservationID` when the incremented 32-bit id would wrap below
`MIN_RESERVATION_ID`.  Errors are thrown before any state mutation, so the
error cases return no state (the caller's state is unchanged).
`generate_tickets` (lines 291-294) is inlined: the record's `ticket_min` is
the current `base_ticket`, which is then advanced by `ticket_count`. -/
def make_reservation (db : Database) (event_id ticket_count now : Nat) :
    Except DBError (Reservation × Database) :=
  if ticket_count = 0 then .error .InvalidTicketCount
  else if MAX_TICKET_COUNT < ticket_count then .error .TooManyTickets
  else if db.events.length ≤ event_id then .error .EventNotFound
  else if (db.events.getD event_id default).ticket_count < ticket_count then
    .error .TicketShortage
  else if (db.next_reservation_id + 1) % 2 ^ 32 < MIN_RESERVATION_ID then
    .error .InvalidReservationID
  else
    let expiration_time := now + db.timeout
    let reservation_id := db.next_reservation_id
    let ev := db.events.getD event_id default
    let cookie := generate_cookie reservation_id
    let info : ReservationInfo :=
      { event_id := event_id, ticket_count := ticket_count, cookie := cookie,
        ticket_min := db.base_ticket, received := false }
    .ok
      ({ reservation_id := reservation_id, event_id := event_id,
         ticket_count := ticket_count, cookie := cookie,
         expiration_time := expiration_time },
       { db with
           events := db.events.set event_id
             { ev with ticket_count := ev.ticket_count - ticket_count },
           reservations := emplace db.reservations reservation_id info,
           reservation_queue :=
             db.reservation_queue ++ [⟨reservation_id, expiration_time⟩],
           next_reservation_id := (db.next_reservation_id + 1) % 2 ^ 32,
           base_ticket := increase_ticket db.base_ticket ticket_count })

/-- `Database::get_tickets` from `src/src/database.cpp`: sweep the expiry
queue, look the reservation up (`ReservationNotFound` when absent), compare
cookies (`InvalidCookie` on mismatch), otherwise mark the record received and
return the reconstructed ticket codes.  The state component is the database
after the call (errors still keep the sweep's effect, as in the source). -/
def get_tickets (db : Database) (reservation_id : Nat) (cookie : List Nat) (now : Nat) :
    Except DBError (List (List Nat)) × Database :=
  match lookupRes (clean_queue db now).reservations reservation_id with
  | none => (.error .ReservationNotFound, clean_queue db now)
  | some reservation =>
    if cmp_cookies cookie reservation.cookie then
      (.ok (ticketsFrom reservation.ticket_min reservation.ticket_count),
       { clean_queue db now with
         reservations := setReceived (clean_queue db now).reservations reservation_id })
    else (.error .InvalidCookie, clean_queue db now)

/-- Sum of `ticket_count` over the reservation records for event `e` whose
`received` flag equals `b` (the pending/redeemed split of the conservation
claim). -/
def sumOver : List (Nat × ReservationInfo) → Nat → Bool → Nat
  | [], _, _ => 0
  | (_, v) :: rest, e, b =>
    (if v.event_id = e ∧ v.received = b then v.ticket_count else 0) + sumOver rest e b

/-- The event's current `ticket_count` field (its available tickets). -/
def availableTickets (db : Database) (e : Nat) : Nat :=
  (db.events.getD e default).ticket_count

/-- The conserved quantity of the ticket-conservation invariant:
available tickets plus pending (non-redeemed) plus redeemed ticket counts. -/
def conserved (db : Database) (e : Nat) : Nat :=
  availableTickets db e + sumOver db.reservations e false + sumOver db.reservations e true

/-- `struct Event` as used by `src/ticket_server.cpp` (the `EVENTS` encoder):
only the wire-relevant fields. -/
structure EventTS where
  event_id : Nat
  description : String
  ticket_count : Nat
deriving DecidableEq

/-- `get_event_size` from `src/ticket_server.cpp`:
`sizeof(event_id) + sizeof(ticket_count) + sizeof(uint8_t) + desc length`. -/
def get_event_size (e : EventTS) : Nat :=
  4 + 2 + 1 + e.description.length

/-- The first loop of `handle_events` (`src/ticket_server.cpp` lines
158-169): starting from `size = sizeof(Message) = 1`, add each event's wire
size while it still fits in `MAX_CONTENT_SIZE`, counting the events taken;
`break` at the first event that does not fit.  Returns
`(allocated size, event_count)`. -/
def alloc_loop : List EventTS → Nat → Nat → Nat × Nat
  | [], size, cnt => (size, cnt)
  | e :: rest, size, cnt =>
    if size + get_event_size e ≤ MAX_CONTENT_SIZE then
      alloc_loop rest (size + get_event_size e) (cnt + 1)
    else (size, cnt)

/-- The buffer size `handle_events` allocates and the number of events its
sizing loop accepted. -/
def handle_events_alloc (events : List EventTS) : Nat × Nat :=
  alloc_loop events 1 0

/-- Total bytes the second loop of `handle_events` (lines 171-173) writes:
`buffer[0] = EVENTS_REPLY_ID` then `add_event` for EVERY event of the
catalogue (the loop does not stop at `event_count`). -/
def handle_events_written (events : List EventTS) : Nat :=
  1 + (events.map get_event_size).sum

/-- A byte of the ticket alphabet `'0'..'9'`, `'A'..'Z'`. -/
def isTicketChar (c : Nat) : Prop :=
  (48 ≤ c ∧ c ≤ 57) ∨ (65 ≤ c ∧ c ≤ 90)

instance (c : Nat) : Decidable (isTicketChar c) := by
  unfold isTicketChar; infer_instance

/-- Little-endian base-36 value of a ticket, via the source's `to_int`
digit reading (position 0 least significant). -/
def ticketVal : List Nat → Nat
  | [] => 0
  | c :: rest => to_int c + 36 * ticketVal rest

/-! ### Concrete states used by witnesses and counterexample evaluations -/

/-- A fresh database (timeout 1 second) holding one event with one ticket. -/
def db0C2 : Database :=
  { timeout := 1, events := [{ event_id := 0, description := "A", ticket_count := 1 }],
    reservations := [], reservation_queue := [], next_reservation_id := 10000000,
    base_ticket := List.replicate 7 48 }

/-- The reservation returned by `make_reservation db0C2 0 1 0`. -/
def resC2 : Reservation :=
  { reservation_id := 10000000, event_id := 0, ticket_count := 1,
    cookie := generate_cookie 10000000, expiration_time := 1 }

/-- The database state after `make_reservation db0C2 0 1 0`. -/
def db1C2 : Database :=
  { timeout := 1, events := [{ event_id := 0, description := "A", ticket_count := 0 }],
    reservations := [(10000000,
      { event_id := 0, ticket_count := 1, cookie := generate_cookie 10000000,
        ticket_min := List.replicate 7 48, received := false })],
    reservation_queue := [{ reservation_id := 10000000, expiration_time := 1 }],
    next_reservation_id := 10000001,
    base_ticket := [49, 48, 48, 48, 48, 48, 48] }

/-- A fresh database (timeout 5) holding one event with five tickets. -/
def dbW4 : Database :=
  { timeout := 5, events := [{ event_id := 0, description := "A", ticket_count := 5 }],
    reservations := [], reservation_queue := [], next_reservation_id := 10000000,
    base_ticket := List.replicate 7 48 }

/-! ### Claims -/

/-- C4: `make_reservation` checks its preconditions in source order —
`ticket_count == 0` yields `InvalidTicketCount`, then `ticket_count` above
the cap `MAX_TICKET_COUNT = 9357` yields `TooManyTickets`, then an event id
outside the catalogue yields `EventNotFound`, then insufficient available
tickets yields `TicketShortage`; in each case exactly the first violated
condition's error is reported. -/
theorem C4_reserve_error_order (db : Database) (event_id ticket_count now : Nat) :
    MAX_TICKET_COUNT = 9357 ∧
    (ticket_count = 0 →
      make_reservation db event_id ticket_count now = .error .InvalidTicketCount) ∧
    (ticket_count ≠ 0 → 9357 < ticket_count →
      make_reservation db event_id ticket_count now = .error .TooManyTickets) ∧
    (ticket_count ≠ 0 → ticket_count ≤ 9357 → db.events.length ≤ event_id →
      make_reservation db event_id ticket_count now = .error .EventNotFound) ∧
    (ticket_count ≠ 0 → ticket_count ≤ 9357 → event_id < db.events.length →
      (db.events.getD event_id default).ticket_count < ticket_count →
      make_reservation db event_id ticket_count now = .error .TicketShortage) := by
  have hm : MAX_TICKET_COUNT = 9357 := rfl
  refine ⟨rfl, ?_, ?_, ?_, ?_⟩
  · intro h
    unfold make_reservation
    rw [if_pos h]
  · intro h1 h2
    unfold make_reservation
    rw [if_neg h1, if_pos (by rw [hm]; omega)]
  · intro h1 h2 h3
    unfold make_reservation
    rw [if_neg h1, if_neg (by rw [hm]; omega), if_pos h3]
  · intro h1 h2 h3 h4
    unfold make_reservation
    rw [if_neg h1, if_neg (by rw [hm]; omega), if_neg (by omega), if_pos h4]

/-- Witness for C4 at concrete inputs: each of the four error conditions
fired on the concrete database `dbW4`. -/
theorem C4_reserve_error_order_witness :
    make_reservation dbW4 0 0 5 = .error .InvalidTicketCount ∧
    make_reservation dbW4 0 9358 5 = .error .TooManyTickets ∧
    make_reservation dbW4 3 1 5 = .error .EventNotFound ∧
    make_reservation dbW4 0 6 5 = .error .TicketShortage :=
  ⟨(C4_reserve_error_order dbW4 0 0 5).2.1 rfl,
   (C4_reserve_error_order dbW4 0 9358 5).2.2.1 (by decide) (by decide),
   (C4_reserve_error_order dbW4 3 1 5).2.2.2.1 (by decide) (by decide) (by decide),
   (C4_reserve_error_order dbW4 0 6 5).2.2.2.2 (by decide) (by decide) (by decide) (by decide)⟩

/-- C2 (code bug): `make_reservation` does NOT sweep the expiry queue.
Concretely: event 0 has one ticket, timeout 1; a reservation made at `t = 0`
expires at `t = 1`; a second `make_reservation` at `t = 3` fails with
`TicketShortage`, although running `clean_queue` first (as the claim and the
spec require) reclaims the expired ticket and makes the same call succeed. -/
theorem C2_reserve_skips_sweep :
    make_reservation db0C2 0 1 0 = .ok (resC2, db1C2) ∧
    make_reservation db1C2 0 1 3 = .error .TicketShortage ∧
    (make_reservation (clean_queue db1C2 3) 0 1 3).isOk = true :=
  ⟨rfl, rfl, rfl⟩

/-- C5 (code bug): the base-36 counter increment is broken at a digit sum of
exactly 36, because `increase_ticket` tests `value > offset` instead of
`value >= offset`.  The counter value `"Z000000"` (35) is reachable from the
initial `"0000000"` by `reserve_block(35)`; incrementing it by 1 then yields
first byte 91 (`'['`), which is not in the alphabet `'0'..'9','A'..'Z'`,
instead of carrying to `"0100000"`. -/
theorem C5_increase_ticket_bug :
    increase_ticket (List.replicate TICKET_LEN 48) 35 = [90, 48, 48, 48, 48, 48, 48] ∧
    ticketVal [90, 48, 48, 48, 48, 48, 48] = 35 ∧
    increase_ticket [90, 48, 48, 48, 48, 48, 48] 1 = [91, 48, 48, 48, 48, 48, 48] ∧
    ¬ isTicketChar 91 := by
  decide

/-- C6 (code bug): with 753 events of 80-byte descriptions the sizing loop of
`handle_events` correctly keeps only the 752-event prefix (65425 bytes
allocated), but the writing loop then emits ALL 753 events — 65512 bytes,
past both the allocated buffer and `MAX_CONTENT_SIZE = 65507`. -/
theorem C6_events_writer_overflows :
    handle_events_alloc (List.replicate 753 ⟨0, ⟨List.replicate 80 'a'⟩, 10⟩) = (65425, 752) ∧
    handle_events_written (List.replicate 753 ⟨0, ⟨List.replicate 80 'a'⟩, 10⟩) = 65512 ∧
    65425 < 65512 ∧ MAX_CONTENT_SIZE < 65512 := by
  refine ⟨?_, ?_, by decide, by decide⟩ <;> rfl

/-- C9 (code bug): `cmp_cookies` exits at the first mismatching byte instead
of inspecting all 48 positions — on two cookies differing in byte 0 the loop
inspects exactly one position. -/
theorem C9_cmp_cookies_early_exit :
    cmp_cookies (List.replicate COOKIE_LEN 33) (34 :: List.replicate 47 33) = false ∧
    cmpInspected ((List.replicate COOKIE_LEN 33).zip (34 :: List.replicate 47 33)) = 1 ∧
    (1 : Nat) ≠ COOKIE_LEN := by
  decide

/-! ### Helper lemmas on lists and the association-list reservation map -/

theorem lookupRes_cons (p : Nat × ReservationInfo) (t : List (Nat × ReservationInfo)) (k : Nat) :
    lookupRes (p :: t) k = if p.1 = k then some p.2 else lookupRes t k := by
  cases p; rfl

theorem eraseKey_cons (p : Nat × ReservationInfo) (t : List (Nat × ReservationInfo)) (k : Nat) :
    eraseKey (p :: t) k = if p.1 = k then t else p :: eraseKey t k := by
  cases p; rfl

theorem countKey_cons (p : Nat × ReservationInfo) (t : List (Nat × ReservationInfo)) (k : Nat) :
    countKey (p :: t) k = (if p.1 = k then 1 else 0) + countKey t k := by
  cases p; rfl

theorem setReceived_cons (p : Nat × ReservationInfo) (t : List (Nat × ReservationInfo)) (k : Nat) :
    setReceived (p :: t) k =
      if p.1 = k then (p.1, { p.2 with received := true }) :: t
      else p :: setReceived t k := by
  cases p; rfl

theorem sumOver_cons (p : Nat × ReservationInfo) (t : List (Nat × ReservationInfo))
    (e : Nat) (b : Bool) :
    sumOver (p :: t) e b =
      (if p.2.event_id = e ∧ p.2.received = b then p.2.ticket_count else 0) + sumOver t e b := by
  cases p; rfl

theorem getD_set_self {α : Type} : ∀ (l : List α) (i : Nat) (a d : α),
    i < l.length → (l.set i a).getD i d = a := by
  intro l
  induction l with
  | nil => intro i a d h; cases h
  | cons x t ih =>
    intro i a d h
    cases i with
    | zero => rfl
    | succ j => exact ih j a d (by simpa using h)

theorem getD_set_ne {α : Type} : ∀ (l : List α) (i j : Nat) (a d : α),
    i ≠ j → (l.set i a).getD j d = l.getD j d := by
  intro l
  induction l with
  | nil => intro i j a d _; cases i <;> rfl
  | cons x t ih =>
    intro i j a d h
    cases i with
    | zero =>
      cases j with
      | zero => exact absurd rfl h
      | succ j' => rfl
    | succ i' =>
      cases j with
      | zero => rfl
      | succ j' => exact ih i' j' a d (by omega)

theorem lookupRes_mem : ∀ (m : List (Nat × ReservationInfo)) (k : Nat) (v : ReservationInfo),
    lookupRes m k = some v → (k, v) ∈ m := by
  intro m
  induction m with
  | nil => intro k v h; cases h
  | cons p t ih =>
    intro k v h
    rw [lookupRes_cons] at h
    by_cases hk : p.1 = k
    · rw [if_pos hk] at h
      cases h
      cases p
      simp_all
    · rw [if_neg hk] at h
      exact List.mem_cons_of_mem p (ih k v h)

theorem lookupRes_eraseKey_ne : ∀ (m : List (Nat × ReservationInfo)) (rid k : Nat),
    k ≠ rid → lookupRes (eraseKey m rid) k = lookupRes m k := by
  intro m
  induction m with
  | nil => intro rid k _; rfl
  | cons p t ih =>
    intro rid k hk
    rw [eraseKey_cons]
    by_cases hp : p.1 = rid
    · rw [if_pos hp, lookupRes_cons, if_neg (by omega)]
    · rw [if_neg hp, lookupRes_cons, lookupRes_cons]
      by_cases hq : p.1 = k
      · rw [if_pos hq, if_pos hq]
      · rw [if_neg hq, if_neg hq]
        exact ih rid k hk

theorem lookupRes_eraseKey_none : ∀ (m : List (Nat × ReservationInfo)) (rid k : Nat),
    lookupRes m k = none → lookupRes (eraseKey m rid) k = none := by
  intro m
  induction m with
  | nil => intro rid k _; rfl
  | cons p t ih =>
    intro rid k h
    rw [lookupRes_cons] at h
    by_cases hq : p.1 = k
    · rw [if_pos hq] at h; cases h
    · rw [if_neg hq] at h
      rw [eraseKey_cons]
      by_cases hp : p.1 = rid
      · rw [if_pos hp]; exact h
      · rw [if_neg hp, lookupRes_cons, if_neg hq]
        exact ih rid k h

theorem countKey_zero_lookup : ∀ (m : List (Nat × ReservationInfo)) (k : Nat),
    countKey m k = 0 → lookupRes m k = none := by
  intro m
  induction m with
  | nil => intro k _; rfl
  | cons p t ih =>
    intro k h
    rw [countKey_cons] at h
    rw [lookupRes_cons]
    by_cases hp : p.1 = k
    · rw [if_pos hp] at h; omega
    · rw [if_neg hp] at h
      rw [if_neg hp]
      exact ih k (by omega)

theorem lookup_none_countKey : ∀ (m : List (Nat × ReservationInfo)) (k : Nat),
    lookupRes m k = none → countKey m k = 0 := by
  intro m
  induction m with
  | nil => intro k _; rfl
  | cons p t ih =>
    intro k h
    rw [lookupRes_cons] at h
    rw [countKey_cons]
    by_cases hp : p.1 = k
    · rw [if_pos hp] at h; cases h
    · rw [if_neg hp] at h
      rw [if_neg hp, ih k h]

theorem countKey_eraseKey_le : ∀ (m : List (Nat × ReservationInfo)) (rid k : Nat),
    countKey (eraseKey m rid) k ≤ countKey m k := by
  intro m
  induction m with
  | nil => intro rid k; exact Nat.le_refl _
  | cons p t ih =>
    intro rid k
    rw [eraseKey_cons, countKey_cons]
    by_cases hp : p.1 = rid
    · rw [if_pos hp]
      have := ih rid k
      split <;> omega
    · rw [if_neg hp, countKey_cons]
      have := ih rid k
      omega

theorem lookup_eraseKey_self_of_count_le_one :
    ∀ (m : List (Nat × ReservationInfo)) (rid : Nat),
    countKey m rid ≤ 1 → lookupRes (eraseKey m rid) rid = none := by
  intro m
  induction m with
  | nil => intro rid _; rfl
  | cons p t ih =>
    intro rid h
    rw [countKey_cons] at h
    rw [eraseKey_cons]
    by_cases hp : p.1 = rid
    · rw [if_pos hp]
      rw [if_pos hp] at h
      exact countKey_zero_lookup t rid (by omega)
    · rw [if_neg hp] at h
      rw [if_neg hp, lookupRes_cons, if_neg hp]
      exact ih rid (by omega)

theorem countKey_append : ∀ (m1 m2 : List (Nat × ReservationInfo)) (k : Nat),
    countKey (m1 ++ m2) k = countKey m1 k + countKey m2 k := by
  intro m1
  induction m1 with
  | nil => intro m2 k; simp [countKey]
  | cons p t ih =>
    intro m2 k
    rw [List.cons_append, countKey_cons, countKey_cons, ih m2 k]
    omega

theorem lookupRes_append_of_none :
    ∀ (m : List (Nat × ReservationInfo)) (k : Nat) (v : ReservationInfo),
    lookupRes m k = none → lookupRes (m ++ [(k, v)]) k = some v := by
  intro m
  induction m with
  | nil => intro k v _; simp [lookupRes]
  | cons p t ih =>
    intro k v h
    rw [lookupRes_cons] at h
    by_cases hp : p.1 = k
    · rw [if_pos hp] at h; cases h
    · rw [if_neg hp] at h
      rw [List.cons_append, lookupRes_cons, if_neg hp]
      exact ih k v h

theorem lookupRes_keys_lt : ∀ (m : List (Nat × ReservationInfo)) (n : Nat),
    (∀ p ∈ m, p.1 < n) → lookupRes m n = none := by
  intro m
  induction m with
  | nil => intro n _; rfl
  | cons p t ih =>
    intro n h
    rw [lookupRes_cons]
    have hp := h p (List.mem_cons_self p t)
    rw [if_neg (by omega)]
    exact ih n (fun q hq => h q (List.mem_cons_of_mem p hq))

theorem lookupRes_setReceived_self :
    ∀ (m : List (Nat × ReservationInfo)) (rid : Nat) (v : ReservationInfo),
    lookupRes m rid = some v →
    lookupRes (setReceived m rid) rid = some { v with received := true } := by
  intro m
  induction m with
  | nil => intro rid v h; cases h
  | cons p t ih =>
    intro rid v h
    rw [lookupRes_cons] at h
    rw [setReceived_cons]
    by_cases hp : p.1 = rid
    · rw [if_pos hp] at h
      cases h
      rw [if_pos hp, lookupRes_cons]
      simp [hp]
    · rw [if_neg hp] at h
      rw [if_neg hp, lookupRes_cons, if_neg hp]
      exact ih rid v h

theorem setReceived_eta (v : ReservationInfo) (h : v.received = true) :
    ({ v with received := true } : ReservationInfo) = v := by
  cases v
  simp only at h
  simp [h]

theorem mem_eraseKey : ∀ (m : List (Nat × ReservationInfo)) (rid : Nat)
    (p : Nat × ReservationInfo), p ∈ eraseKey m rid → p ∈ m := by
  intro m
  induction m with
  | nil => intro rid p h; cases h
  | cons q t ih =>
    intro rid p h
    rw [eraseKey_cons] at h
    by_cases hq : q.1 = rid
    · rw [if_pos hq] at h
      exact List.mem_cons_of_mem q h
    · rw [if_neg hq] at h
      rcases List.mem_cons.mp h with h1 | h2
      · exact h1 ▸ List.mem_cons_self q t
      · exact List.mem_cons_of_mem q (ih rid p h2)

/-! ### Lemmas about `remove_reservation`, `cleanLoop` and the conserved sum -/

theorem remove_reservation_cases (db : Database) (rid : Nat) :
    ((lookupRes db.reservations rid = none ∨
        ∃ v, lookupRes db.reservations rid = some v ∧ v.received = true) ∧
      remove_reservation db rid = db) ∨
    (∃ v, lookupRes db.reservations rid = some v ∧ v.received = false ∧
      remove_reservation db rid =
        { db with
            events := db.events.set v.event_id
              { db.events.getD v.event_id default with
                ticket_count :=
                  ((db.events.getD v.event_id default).ticket_count + v.ticket_count)
                    % 2 ^ 16 },
            reservations := eraseKey db.reservations rid }) := by
  unfold remove_reservation
  split
  next h => exact Or.inl ⟨Or.inl h, rfl⟩
  next v h =>
    split
    next hv => exact Or.inl ⟨Or.inr ⟨v, h, hv⟩, rfl⟩
    next hv => exact Or.inr ⟨v, h, by simpa using hv, rfl⟩

theorem lookup_remove_received (db : Database) (rid rid' : Nat) (v : ReservationInfo)
    (h : lookupRes db.reservations rid = some v) (hv : v.received = true) :
    lookupRes (remove_reservation db rid').reservations rid = some v := by
  rcases remove_reservation_cases db rid' with ⟨_, heq⟩ | ⟨w, hw, hwr, heq⟩
  · rw [heq]; exact h
  · rw [heq]
    show lookupRes (eraseKey db.reservations rid') rid = some v
    by_cases he : rid' = rid
    · subst he
      rw [h] at hw
      cases hw
      rw [hv] at hwr
      cases hwr
    · rw [lookupRes_eraseKey_ne _ _ _ (fun hh => he hh.symm)]
      exact h

theorem lookup_remove_none (db : Database) (rid rid' : Nat)
    (h : lookupRes db.reservations rid = none) :
    lookupRes (remove_reservation db rid').reservations rid = none := by
  rcases remove_reservation_cases db rid' with ⟨_, heq⟩ | ⟨w, hw, hwr, heq⟩
  · rw [heq]; exact h
  · rw [heq]
    show lookupRes (eraseKey db.reservations rid') rid = none
    exact lookupRes_eraseKey_none _ _ _ h

theorem lookup_remove_ne (db : Database) (rid rid' : Nat) (hne : rid' ≠ rid) :
    lookupRes (remove_reservation db rid').reservations rid
      = lookupRes db.reservations rid := by
  rcases remove_reservation_cases db rid' with ⟨_, heq⟩ | ⟨w, hw, hwr, heq⟩
  · rw [heq]
  · rw [heq]
    show lookupRes (eraseKey db.reservations rid') rid = lookupRes db.reservations rid
    exact lookupRes_eraseKey_ne _ _ _ (fun hh => hne hh.symm)

theorem countKey_remove_le (db : Database) (rid' k : Nat) :
    countKey (remove_reservation db rid').reservations k
      ≤ countKey db.reservations k := by
  rcases remove_reservation_cases db rid' with ⟨_, heq⟩ | ⟨w, hw, hwr, heq⟩
  · rw [heq]
  · rw [heq]
    show countKey (eraseKey db.reservations rid') k ≤ countKey db.reservations k
    exact countKey_eraseKey_le _ _ _

theorem mem_remove_reservations (db : Database) (rid' : Nat) (p : Nat × ReservationInfo)
    (h : p ∈ (remove_reservation db rid').reservations) : p ∈ db.reservations := by
  rcases remove_reservation_cases db rid' with ⟨_, heq⟩ | ⟨w, hw, hwr, heq⟩
  · rw [heq] at h; exact h
  · rw [heq] at h
    exact mem_eraseKey _ _ _ h

theorem remove_events_length (db : Database) (rid' : Nat) :
    (remove_reservation db rid').events.length = db.events.length := by
  rcases remove_reservation_cases db rid' with ⟨_, heq⟩ | ⟨w, hw, hwr, heq⟩
  · rw [heq]
  · rw [heq]
    show (db.events.set w.event_id _).length = db.events.length
    exact List.length_set db.events _ _

theorem cleanLoop_succ (now f : Nat) (db : Database) :
    cleanLoop now (f + 1) db =
      match db.reservation_queue with
      | [] => db
      | top :: rest =>
        if top.expiration_time < now then
          cleanLoop now f
            { remove_reservation db top.reservation_id with reservation_queue := rest }
        else db := rfl

theorem cleanLoop_pres (now : Nat) (P : Database → Prop)
    (hq : ∀ db q, P db → P { db with reservation_queue := q })
    (hr : ∀ db rid, P db → P (remove_reservation db rid)) :
    ∀ fuel (db : Database), P db → P (cleanLoop now fuel db) := by
  intro fuel
  induction fuel with
  | zero => intro db h; exact h
  | succ f ih =>
    intro db h
    rw [cleanLoop_succ]
    split
    · exact h
    · split
      · rename_i top rest hq2 ht
        exact ih _ (hq _ rest (hr _ top.reservation_id h))
      · exact h

theorem sumOver_eraseKey : ∀ (m : List (Nat × ReservationInfo)) (rid : Nat)
    (v : ReservationInfo) (e : Nat) (b : Bool), lookupRes m rid = some v →
    sumOver m e b =
      (if v.event_id = e ∧ v.received = b then v.ticket_count else 0)
        + sumOver (eraseKey m rid) e b := by
  intro m
  induction m with
  | nil => intro rid v e b h; cases h
  | cons p t ih =>
    intro rid v e b h
    rw [lookupRes_cons] at h
    rw [eraseKey_cons, sumOver_cons]
    by_cases hp : p.1 = rid
    · rw [if_pos hp] at h
      cases h
      rw [if_pos hp]
    · rw [if_neg hp] at h
      rw [if_neg hp, sumOver_cons, ih rid v e b h]
      omega

theorem sumOver_append_single : ∀ (m : List (Nat × ReservationInfo)) (k : Nat)
    (v : ReservationInfo) (e : Nat) (b : Bool),
    sumOver (m ++ [(k, v)]) e b =
      sumOver m e b + (if v.event_id = e ∧ v.received = b then v.ticket_count else 0) := by
  intro m
  induction m with
  | nil =>
    intro k v e b
    rw [List.nil_append, sumOver_cons]
    unfold sumOver
    simp
  | cons p t ih =>
    intro k v e b
    rw [List.cons_append, sumOver_cons, sumOver_cons, ih k v e b]
    omega

theorem sumOver_setReceived_total : ∀ (m : List (Nat × ReservationInfo)) (rid e : Nat),
    sumOver (setReceived m rid) e false + sumOver (setReceived m rid) e true
      = sumOver m e false + sumOver m e true := by
  intro m
  induction m with
  | nil => intro rid e; rfl
  | cons p t ih =>
    intro rid e
    rw [setReceived_cons]
    by_cases hp : p.1 = rid
    · rw [if_pos hp, sumOver_cons, sumOver_cons, sumOver_cons, sumOver_cons]
      by_cases he : p.2.event_id = e
      · by_cases hr : p.2.received = true
        · simp [he, hr]
        · have hr' : p.2.received = false := by simpa using hr
          simp [he, hr']
          omega
      · simp [he]
    · rw [if_neg hp, sumOver_cons, sumOver_cons, sumOver_cons, sumOver_cons]
      have := ih rid e
      omega

theorem conserved_remove (db : Database) (rid e : Nat)
    (hwf : ∀ p ∈ db.reservations, p.2.event_id < db.events.length)
    (hb : conserved db e < 2 ^ 16) :
    conserved (remove_reservation db rid) e = conserved db e := by
  rcases remove_reservation_cases db rid with ⟨_, heq⟩ | ⟨v, hv, hvr, heq⟩
  · rw [heq]
  · rw [heq]
    have hmem := lookupRes_mem _ _ _ hv
    have hevlt : v.event_id < db.events.length := hwf _ hmem
    have hF := sumOver_eraseKey _ _ _ e false hv
    have hT := sumOver_eraseKey _ _ _ e true hv
    unfold conserved availableTickets at hb
    show ((db.events.set v.event_id
        { db.events.getD v.event_id default with
          ticket_count :=
            ((db.events.getD v.event_id default).ticket_count + v.ticket_count)
              % 2 ^ 16 }).getD e default).ticket_count
      + sumOver (eraseKey db.reservations rid) e false
      + sumOver (eraseKey db.reservations rid) e true
      = conserved db e
    unfold conserved availableTickets
    by_cases he : v.event_id = e
    · subst he
      rw [getD_set_self _ _ _ _ hevlt]
      rw [if_pos ⟨rfl, hvr⟩] at hF
      rw [if_neg (by simp [hvr])] at hT
      show ((db.events.getD v.event_id default).ticket_count + v.ticket_count) % 2 ^ 16
          + sumOver (eraseKey db.reservations rid) v.event_id false
          + sumOver (eraseKey db.reservations rid) v.event_id true
          = (db.events.getD v.event_id default).ticket_count
            + sumOver db.reservations v.event_id false
            + sumOver db.reservations v.event_id true
      have hmod :
          ((db.events.getD v.event_id default).ticket_count + v.ticket_count) % 2 ^ 16
            = (db.events.getD v.event_id default).ticket_count + v.ticket_count := by
        apply Nat.mod_eq_of_lt
        omega
      rw [hmod]
      omega
    · rw [getD_set_ne _ _ _ _ _ (fun hh => he hh)]
      rw [if_neg (by simp [he])] at hF
      rw [if_neg (by simp [he])] at hT
      omega

theorem conserved_clean (db : Database) (e now : Nat)
    (hwf : ∀ p ∈ db.reservations, p.2.event_id < db.events.length)
    (hb : conserved db e < 2 ^ 16) :
    conserved (clean_queue db now) e = conserved db e := by
  have main := cleanLoop_pres now
    (fun d => conserved d e = conserved db e ∧
      ∀ p ∈ d.reservations, p.2.event_id < d.events.length)
    (fun d q h => h)
    (fun d rid h => by
      refine ⟨?_, ?_⟩
      · rw [conserved_remove d rid e h.2 (by rw [h.1]; exact hb)]
        exact h.1
      · intro p hp
        rw [remove_events_length]
        exact h.2 p (mem_remove_reservations d rid p hp))
    db.reservation_queue.length db ⟨rfl, hwf⟩
  exact main.1

theorem clean_wf (db : Database) (now : Nat)
    (hwf : ∀ p ∈ db.reservations, p.2.event_id < db.events.length) :
    ∀ p ∈ (clean_queue db now).reservations,
      p.2.event_id < (clean_queue db now).events.length := by
  have main := cleanLoop_pres now
    (fun d => ∀ p ∈ d.reservations, p.2.event_id < d.events.length)
    (fun d q h => h)
    (fun d rid h => by
      intro p hp
      rw [remove_events_length]
      exact h p (mem_remove_reservations d rid p hp))
    db.reservation_queue.length db hwf
  exact main

/-- Inversion of a successful `make_reservation`: the guards that held and
the exact result and post-state. -/
theorem make_reservation_ok {db : Database} {event_id ticket_count now : Nat}
    {r : Reservation} {db2 : Database}
    (h : make_reservation db event_id ticket_count now = .ok (r, db2)) :
    ticket_count ≠ 0 ∧ event_id < db.events.length ∧
    ticket_count ≤ (db.events.getD event_id default).ticket_count ∧
    r = { reservation_id := db.next_reservation_id, event_id := event_id,
          ticket_count := ticket_count,
          cookie := generate_cookie db.next_reservation_id,
          expiration_time := now + db.timeout } ∧
    db2 = { db with
        events := db.events.set event_id
          { db.events.getD event_id default with
            ticket_count :=
              (db.events.getD event_id default).ticket_count - ticket_count },
        reservations := emplace db.reservations db.next_reservation_id
          { event_id := event_id, ticket_count := ticket_count,
            cookie := generate_cookie db.next_reservation_id,
            ticket_min := db.base_ticket, received := false },
        reservation_queue := db.reservation_queue
          ++ [⟨db.next_reservation_id, now + db.timeout⟩],
        next_reservation_id := (db.next_reservation_id + 1) % 2 ^ 32,
        base_ticket := increase_ticket db.base_ticket ticket_count } := by
  unfold make_reservation at h
  split at h
  · exact Except.noConfusion h
  split at h
  · exact Except.noConfusion h
  split at h
  · exact Except.noConfusion h
  split at h
  · exact Except.noConfusion h
  split at h
  · exact Except.noConfusion h
  rename_i h1 h2 h3 h4 h5
  rw [Except.ok.injEq, Prod.mk.injEq] at h
  obtain ⟨hr, hdb⟩ := h
  exact ⟨h1, by omega, by omega, hr.symm, hdb.symm⟩

/-- Case analysis of `get_tickets`: not-found, success, and bad-cookie. -/
theorem get_tickets_cases (db : Database) (rid : Nat) (ck : List Nat) (now : Nat) :
    (lookupRes (clean_queue db now).reservations rid = none ∧
      get_tickets db rid ck now = (.error .ReservationNotFound, clean_queue db now)) ∨
    (∃ v, lookupRes (clean_queue db now).reservations rid = some v ∧
      cmp_cookies ck v.cookie = true ∧
      get_tickets db rid ck now =
        (.ok (ticketsFrom v.ticket_min v.ticket_count),
         { clean_queue db now with
           reservations := setReceived (clean_queue db now).reservations rid })) ∨
    (∃ v, lookupRes (clean_queue db now).reservations rid = some v ∧
      cmp_cookies ck v.cookie = false ∧
      get_tickets db rid ck now = (.error .InvalidCookie, clean_queue db now)) := by
  unfold get_tickets
  split
  next hl => exact Or.inl ⟨hl, rfl⟩
  next v hl =>
    split
    next hcmp => exact Or.inr (Or.inl ⟨v, hl, hcmp, rfl⟩)
    next hcmp => exact Or.inr (Or.inr ⟨v, hl, by simpa using hcmp, rfl⟩)

/-- C1: ticket conservation.  For every event `e`, the quantity
`available_tickets + Σ ticket_count (pending, non-redeemed) +
Σ ticket_count (redeemed)` is preserved by `clean_queue`, by `get_tickets`
(reserve/redeem/sweep are the only operations that touch it) and by a
successful `make_reservation`, under the reachable-state side conditions:
every stored record points at a real event, the conserved total fits the
16-bit counter, and all stored keys are below the id counter. -/
theorem C1_ticket_conservation (db : Database) (e : Nat)
    (hwf : ∀ p ∈ db.reservations, p.2.event_id < db.events.length)
    (hb : conserved db e < 2 ^ 16)
    (hkeys : ∀ p ∈ db.reservations, p.1 < db.next_reservation_id) :
    (∀ now, conserved (clean_queue db now) e = conserved db e) ∧
    (∀ rid ck now, conserved (get_tickets db rid ck now).2 e = conserved db e) ∧
    (∀ event_id ticket_count now r db2,
      make_reservation db event_id ticket_count now = .ok (r, db2) →
      conserved db2 e = conserved db e) := by
  refine ⟨?_, ?_, ?_⟩
  · intro now
    exact conserved_clean db e now hwf hb
  · intro rid ck now
    have hc := conserved_clean db e now hwf hb
    rcases get_tickets_cases db rid ck now with ⟨hl, heq⟩ | ⟨v, hl, hcmp, heq⟩ |
      ⟨v, hl, hcmp, heq⟩
    · rw [heq]; exact hc
    · rw [heq]
      show conserved
        { clean_queue db now with
          reservations := setReceived (clean_queue db now).reservations rid } e
        = conserved db e
      unfold conserved availableTickets at hc ⊢
      have htot := sumOver_setReceived_total (clean_queue db now).reservations rid e
      show ((clean_queue db now).events.getD e default).ticket_count
          + sumOver (setReceived (clean_queue db now).reservations rid) e false
          + sumOver (setReceived (clean_queue db now).reservations rid) e true = _
      omega
    · rw [heq]; exact hc
  · intro event_id ticket_count now r db2 h
    obtain ⟨h1, h2, h3, _, hdb2⟩ := make_reservation_ok h
    subst hdb2
    have hfresh : lookupRes db.reservations db.next_reservation_id = none :=
      lookupRes_keys_lt db.reservations db.next_reservation_id hkeys
    unfold conserved availableTickets
    show ((db.events.set event_id
        { db.events.getD event_id default with
          ticket_count :=
            (db.events.getD event_id default).ticket_count - ticket_count }).getD
              e default).ticket_count
      + sumOver (emplace db.reservations db.next_reservation_id
          { event_id := event_id, ticket_count := ticket_count,
            cookie := generate_cookie db.next_reservation_id,
            ticket_min := db.base_ticket, received := false }) e false
      + sumOver (emplace db.reservations db.next_reservation_id
          { event_id := event_id, ticket_count := ticket_count,
            cookie := generate_cookie db.next_reservation_id,
            ticket_min := db.base_ticket, received := false }) e true
      = (db.events.getD e default).ticket_count + sumOver db.reservations e false
        + sumOver db.reservations e true
    have hemp : emplace db.reservations db.next_reservation_id
        { event_id := event_id, ticket_count := ticket_count,
          cookie := generate_cookie db.next_reservation_id,
          ticket_min := db.base_ticket, received := false }
        = db.reservations ++ [(db.next_reservation_id,
            { event_id := event_id, ticket_count := ticket_count,
              cookie := generate_cookie db.next_reservation_id,
              ticket_min := db.base_ticket, received := false })] := by
      unfold emplace
      rw [hfresh]
    rw [hemp, sumOver_append_single, sumOver_append_single]
    by_cases he : event_id = e
    · subst he
      rw [getD_set_self _ _ _ _ h2]
      rw [if_pos ⟨rfl, rfl⟩, if_neg (by simp)]
      show (db.events.getD event_id default).ticket_count - ticket_count
          + (sumOver db.reservations event_id false + ticket_count)
          + (sumOver db.reservations event_id true + 0) = _
      omega
    · rw [getD_set_ne _ _ _ _ _ he]
      rw [if_neg (by simp [he]), if_neg (by simp [he])]
      omega

/-- A reachable-looking state with one event (5 tickets available) and one
pending 2-ticket reservation, used by the C1 witness. -/
def dbW1 : Database :=
  { timeout := 5, events := [{ event_id := 0, description := "A", ticket_count := 5 }],
    reservations := [(10000000,
      { event_id := 0, ticket_count := 2, cookie := generate_cookie 10000000,
        ticket_min := List.replicate 7 48, received := false })],
    reservation_queue := [{ reservation_id := 10000000, expiration_time := 8 }],
    next_reservation_id := 10000001,
    base_ticket := [50, 48, 48, 48, 48, 48, 48] }

/-- The reservation returned by `make_reservation dbW1 0 1 100`. -/
def rW1 : Reservation :=
  { reservation_id := 10000001, event_id := 0, ticket_count := 1,
    cookie := generate_cookie 10000001, expiration_time := 105 }

/-- The state after `make_reservation dbW1 0 1 100`. -/
def db2W1 : Database :=
  { timeout := 5, events := [{ event_id := 0, description := "A", ticket_count := 4 }],
    reservations := [(10000000,
      { event_id := 0, ticket_count := 2, cookie := generate_cookie 10000000,
        ticket_min := List.replicate 7 48, received := false }),
      (10000001,
      { event_id := 0, ticket_count := 1, cookie := generate_cookie 10000001,
        ticket_min := [50, 48, 48, 48, 48, 48, 48], received := false })],
    reservation_queue := [{ reservation_id := 10000000, expiration_time := 8 },
      { reservation_id := 10000001, expiration_time := 105 }],
    next_reservation_id := 10000002,
    base_ticket := [51, 48, 48, 48, 48, 48, 48] }

/-- Witness for C1: the three conservation conclusions instantiated on the
concrete state `dbW1` (sweep at t=9 past the deadline, a redeem, and a
successful reserve). -/
theorem C1_ticket_conservation_witness :
    conserved (clean_queue dbW1 9) 0 = conserved dbW1 0 ∧
    conserved (get_tickets dbW1 10000000 (generate_cookie 10000000) 3).2 0
      = conserved dbW1 0 ∧
    conserved db2W1 0 = conserved dbW1 0 := by
  have h := C1_ticket_conservation dbW1 0 (by decide) (by decide) (by decide)
  exact ⟨h.1 9, h.2.1 10000000 (generate_cookie 10000000) 3, h.2.2 0 1 100 rW1 db2W1 rfl⟩

/-! ### Stability of redeemed records -/

theorem lookup_clean_received (db : Database) (rid now : Nat) (v : ReservationInfo)
    (h : lookupRes db.reservations rid = some v) (hv : v.received = true) :
    lookupRes (clean_queue db now).reservations rid = some v :=
  cleanLoop_pres now (fun d => lookupRes d.reservations rid = some v)
    (fun _ _ hh => hh) (fun d rid' hh => lookup_remove_received d rid rid' v hh hv)
    db.reservation_queue.length db h

theorem cmpAux_cons (p : Nat × Nat) (rest : List (Nat × Nat)) :
    cmpAux (p :: rest) = if p.1 ≠ p.2 then false else cmpAux rest := by
  cases p; rfl

theorem cmpAux_zip_refl : ∀ (c : List Nat), cmpAux (c.zip c) = true := by
  intro c
  induction c with
  | nil => rfl
  | cons a t ih =>
    rw [List.zip_cons_cons, cmpAux_cons, if_neg (by simp)]
    exact ih

theorem get_tickets_stable (rid : Nat) (v : ReservationInfo) (hv : v.received = true)
    (ck : List Nat) (hc : cmp_cookies ck v.cookie = true) (db : Database) (now : Nat)
    (h : lookupRes db.reservations rid = some v) :
    (get_tickets db rid ck now).1 = .ok (ticketsFrom v.ticket_min v.ticket_count) ∧
    lookupRes ((get_tickets db rid ck now).2).reservations rid = some v := by
  have hl := lookup_clean_received db rid now v h hv
  rcases get_tickets_cases db rid ck now with ⟨hn, heq⟩ | ⟨w, hw, hcmp, heq⟩ |
    ⟨w, hw, hcmp, heq⟩
  · rw [hl] at hn; cases hn
  · rw [hw] at hl
    injection hl with hwv
    subst hwv
    rw [heq]
    refine ⟨rfl, ?_⟩
    show lookupRes (setReceived (clean_queue db now).reservations rid) rid = some w
    rw [lookupRes_setReceived_self _ _ _ hw, setReceived_eta w hv]
  · rw [hw] at hl
    injection hl with hwv
    subst hwv
    rw [hc] at hcmp
    cases hcmp

/-- C3: redeem is idempotent.  If a `get_tickets` call succeeds and returns
the ticket list `ts`, then after any further sequence of identical redeem
calls (at arbitrary times), one more `get_tickets` with the same id and
cookie still succeeds and returns exactly `ts`. -/
theorem C3_redeem_idempotent (db : Database) (rid : Nat) (ck : List Nat) (now : Nat)
    (ts : List (List Nat)) (db1 : Database)
    (h : get_tickets db rid ck now = (.ok ts, db1)) :
    ∀ (nows : List Nat) (nowLast : Nat),
      (get_tickets (nows.foldl (fun d n => (get_tickets d rid ck n).2) db1)
        rid ck nowLast).1 = .ok ts := by
  rcases get_tickets_cases db rid ck now with ⟨hn, heq⟩ | ⟨v, hl, hcmp, heq⟩ |
    ⟨v, hl, hcmp, heq⟩
  · rw [heq] at h; simp at h
  · rw [heq, Prod.mk.injEq] at h
    obtain ⟨hts, hdb1⟩ := h
    rw [Except.ok.injEq] at hts
    subst hdb1
    have hgood : lookupRes
        ({ clean_queue db now with
           reservations := setReceived (clean_queue db now).reservations rid }
          : Database).reservations rid = some { v with received := true } := by
      show lookupRes (setReceived (clean_queue db now).reservations rid) rid
        = some { v with received := true }
      exact lookupRes_setReceived_self _ _ _ hl
    have hv' : ({ v with received := true } : ReservationInfo).received = true := rfl
    have hc' : cmp_cookies ck ({ v with received := true } : ReservationInfo).cookie
        = true := hcmp
    have hts' : ticketsFrom ({ v with received := true } : ReservationInfo).ticket_min
        ({ v with received := true } : ReservationInfo).ticket_count = ts := hts
    intro nows nowLast
    have key : ∀ (ns : List Nat) (d : Database),
        lookupRes d.reservations rid = some { v with received := true } →
        lookupRes ((ns.foldl (fun d n => (get_tickets d rid ck n).2) d)).reservations rid
          = some { v with received := true } := by
      intro ns
      induction ns with
      | nil => intro d hd; exact hd
      | cons n rest ih =>
        intro d hd
        rw [List.foldl_cons]
        exact ih _ ((get_tickets_stable rid _ hv' ck hc' d n hd).2)
    rw [← hts']
    exact (get_tickets_stable rid _ hv' ck hc' _ nowLast (key nows _ hgood)).1
  · rw [heq] at h; simp at h

/-- C10: a redeemed record persists forever.  If the store holds a record
marked `received`, then `remove_reservation` leaves the database unchanged
(no ticket restore, no erase), every sweep keeps the record intact, and a
redeem with the stored cookie still succeeds at ANY time — in particular
after `expires_at` — returning the same reconstructed codes. -/
theorem C10_redeemed_record_persists (db : Database) (rid : Nat) (v : ReservationInfo)
    (h : lookupRes db.reservations rid = some v) (hv : v.received = true) :
    remove_reservation db rid = db ∧
    (∀ now, lookupRes (clean_queue db now).reservations rid = some v) ∧
    (∀ now, (get_tickets db rid v.cookie now).1
        = .ok (ticketsFrom v.ticket_min v.ticket_count)) := by
  refine ⟨?_, ?_, ?_⟩
  · rcases remove_reservation_cases db rid with ⟨_, heq⟩ | ⟨w, hw, hwr, heq⟩
    · exact heq
    · rw [h] at hw
      injection hw with hwv
      subst hwv
      rw [hv] at hwr
      cases hwr
  · intro now
    exact lookup_clean_received db rid now v h hv
  · intro now
    have hcr : cmp_cookies v.cookie v.cookie = true := cmpAux_zip_refl _
    exact (get_tickets_stable rid v hv v.cookie hcr db now h).1

/-- A state holding one pending (not yet redeemed) reservation, used by the
C3 witness. -/
def dbRcv : Database :=
  { timeout := 5, events := [{ event_id := 0, description := "A", ticket_count := 3 }],
    reservations := [(10000000,
      { event_id := 0, ticket_count := 2, cookie := generate_cookie 10000000,
        ticket_min := List.replicate 7 48, received := false })],
    reservation_queue := [], next_reservation_id := 10000001,
    base_ticket := [50, 48, 48, 48, 48, 48, 48] }

/-- The ticket list of `dbRcv`'s reservation. -/
def tsW3 : List (List Nat) := ticketsFrom (List.replicate 7 48) 2

/-- `dbRcv` after its reservation was redeemed once. -/
def db1W3 : Database :=
  { timeout := 5, events := [{ event_id := 0, description := "A", ticket_count := 3 }],
    reservations := [(10000000,
      { event_id := 0, ticket_count := 2, cookie := generate_cookie 10000000,
        ticket_min := List.replicate 7 48, received := true })],
    reservation_queue := [], next_reservation_id := 10000001,
    base_ticket := [50, 48, 48, 48, 48, 48, 48] }

/-- Witness for C3: after a successful redeem at t=50 and one repeat at t=60,
a further redeem at t=70 still returns the same two codes. -/
theorem C3_redeem_idempotent_witness :
    (get_tickets ([60].foldl
        (fun d n => (get_tickets d 10000000 (generate_cookie 10000000) n).2) db1W3)
      10000000 (generate_cookie 10000000) 70).1 = .ok tsW3 :=
  C3_redeem_idempotent dbRcv 10000000 (generate_cookie 10000000) 50 tsW3 db1W3 rfl
    [60] 70

/-- The redeemed record of `dbRcv10`. -/
def infoRcv10 : ReservationInfo :=
  { event_id := 0, ticket_count := 2, cookie := generate_cookie 10000000,
    ticket_min := List.replicate 7 48, received := true }

/-- A state holding one redeemed reservation whose queue entry has long
expired (deadline 2), used by the C10 witness. -/
def dbRcv10 : Database :=
  { timeout := 5, events := [{ event_id := 0, description := "A", ticket_count := 3 }],
    reservations := [(10000000, infoRcv10)],
    reservation_queue := [{ reservation_id := 10000000, expiration_time := 2 }],
    next_reservation_id := 10000001,
    base_ticket := [50, 48, 48, 48, 48, 48, 48] }

/-- Witness for C10 at t=100, far past the deadline 2: reclamation is a
no-op, the sweep keeps the record, and redeem still returns the codes. -/
theorem C10_redeemed_record_persists_witness :
    remove_reservation dbRcv10 10000000 = dbRcv10 ∧
    lookupRes (clean_queue dbRcv10 100).reservations 10000000 = some infoRcv10 ∧
    (get_tickets dbRcv10 10000000 infoRcv10.cookie 100).1
      = .ok (ticketsFrom infoRcv10.ticket_min infoRcv10.ticket_count) := by
  have h := C10_redeemed_record_persists dbRcv10 10000000 infoRcv10 rfl rfl
  exact ⟨h.1, h.2.1 100, h.2.2 100⟩

/-! ### Full sweep of an expired reservation -/

theorem sweep_removes (now rid : Nat) : ∀ (fuel : Nat) (db : Database),
    db.reservation_queue.length ≤ fuel →
    (∀ q ∈ db.reservation_queue, q.expiration_time < now) →
    countKey db.reservations rid ≤ 1 →
    (lookupRes db.reservations rid = none ∨
      ((∃ q ∈ db.reservation_queue, q.reservation_id = rid) ∧
        ∃ v, lookupRes db.reservations rid = some v ∧ v.received = false)) →
    lookupRes (cleanLoop now fuel db).reservations rid = none := by
  intro fuel
  induction fuel with
  | zero =>
    intro db hlen hexp hcnt hdisj
    rcases hdisj with hnone | ⟨⟨q, hq, _⟩, _⟩
    · exact hnone
    · have : db.reservation_queue = [] := List.length_eq_zero.mp (by omega)
      rw [this] at hq
      cases hq
  | succ f ih =>
    intro db hlen hexp hcnt hdisj
    rw [cleanLoop_succ]
    cases hq2 : db.reservation_queue with
    | nil =>
      rcases hdisj with hnone | ⟨⟨q, hq, _⟩, _⟩
      · exact hnone
      · rw [hq2] at hq
        cases hq
    | cons top rest =>
      have htop : top.expiration_time < now :=
        hexp top (by rw [hq2]; exact List.mem_cons_self top rest)
      show lookupRes
        ((if top.expiration_time < now then
            cleanLoop now f
              { remove_reservation db top.reservation_id with
                reservation_queue := rest }
          else db)).reservations rid = none
      rw [if_pos htop]
      apply ih
      · show rest.length ≤ f
        rw [hq2] at hlen
        simpa using hlen
      · intro q hq
        show q.expiration_time < now
        refine hexp q ?_
        rw [hq2]
        exact List.mem_cons_of_mem top hq
      · show countKey (remove_reservation db top.reservation_id).reservations rid ≤ 1
        exact Nat.le_trans (countKey_remove_le db top.reservation_id rid) hcnt
      · rcases hdisj with hnone | ⟨⟨q, hq, hqid⟩, v, hv, hvr⟩
        · exact Or.inl (lookup_remove_none db rid top.reservation_id hnone)
        · by_cases ht : top.reservation_id = rid
          · subst ht
            rcases remove_reservation_cases db top.reservation_id with
              ⟨hcase, heq⟩ | ⟨w, hw, hwr, heq⟩
            · rcases hcase with hn | ⟨w, hw, hwr⟩
              · rw [hv] at hn; cases hn
              · rw [hv] at hw
                injection hw with hwv
                subst hwv
                rw [hvr] at hwr
                cases hwr
            · left
              rw [heq]
              show lookupRes (eraseKey db.reservations top.reservation_id)
                top.reservation_id = none
              exact lookup_eraseKey_self_of_count_le_one _ _ hcnt
          · right
            refine ⟨⟨q, ?_, hqid⟩, v, ?_, hvr⟩
            · show q ∈ rest
              rw [hq2] at hq
              rcases List.mem_cons.mp hq with h1 | h2
              · exact absurd (h1 ▸ hqid) ht
              · exact h2
            · rw [lookup_remove_ne db rid top.reservation_id ht]
              exact hv

/-- C8: redeem failure modes.  `get_tickets` sweeps first and then reports
`ReservationNotFound` when the id is absent from the post-sweep store and
`InvalidCookie` when it is present but the presented cookie differs — in both
cases the resulting state is exactly the swept state.  Moreover a reservation
made at `t0` and never redeemed is gone when redeemed at
`t0 + timeout + 1` (for reachable states: queue deadlines at most the new one,
stored keys below the id counter), yielding `ReservationNotFound`. -/
theorem C8_redeem_failure_modes (db : Database) (rid : Nat) (ck : List Nat) (now : Nat) :
    (lookupRes (clean_queue db now).reservations rid = none →
      get_tickets db rid ck now = (.error .ReservationNotFound, clean_queue db now)) ∧
    (∀ v, lookupRes (clean_queue db now).reservations rid = some v →
      cmp_cookies ck v.cookie = false →
      get_tickets db rid ck now = (.error .InvalidCookie, clean_queue db now)) ∧
    (∀ event_id ticket_count t0 r db1,
      make_reservation db event_id ticket_count t0 = .ok (r, db1) →
      (∀ q ∈ db.reservation_queue, q.expiration_time ≤ t0 + db.timeout) →
      (∀ p ∈ db.reservations, p.1 < db.next_reservation_id) →
      (get_tickets db1 r.reservation_id ck (t0 + db.timeout + 1)).1
        = .error .ReservationNotFound) := by
  refine ⟨?_, ?_, ?_⟩
  · intro hn
    rcases get_tickets_cases db rid ck now with ⟨hn2, heq⟩ | ⟨v, hl, _, _⟩ |
      ⟨v, hl, _, _⟩
    · exact heq
    · rw [hn] at hl; cases hl
    · rw [hn] at hl; cases hl
  · intro v hv hcmp
    rcases get_tickets_cases db rid ck now with ⟨hn2, heq⟩ | ⟨w, hl, hcm, heq⟩ |
      ⟨w, hl, hcm, heq⟩
    · rw [hv] at hn2; cases hn2
    · rw [hv] at hl
      injection hl with hwv
      subst hwv
      rw [hcmp] at hcm
      cases hcm
    · exact heq
  · intro event_id ticket_count t0 r db1 h hqexp hkeys
    obtain ⟨h1, h2, h3, hr, hdb1⟩ := make_reservation_ok h
    have hfresh : lookupRes db.reservations db.next_reservation_id = none :=
      lookupRes_keys_lt _ _ hkeys
    have hres1 : db1.reservations = db.reservations ++ [(db.next_reservation_id,
        { event_id := event_id, ticket_count := ticket_count,
          cookie := generate_cookie db.next_reservation_id,
          ticket_min := db.base_ticket, received := false })] := by
      rw [hdb1]
      show emplace db.reservations db.next_reservation_id
        { event_id := event_id, ticket_count := ticket_count,
          cookie := generate_cookie db.next_reservation_id,
          ticket_min := db.base_ticket, received := false } = _
      unfold emplace
      rw [hfresh]
    have hque1 : db1.reservation_queue = db.reservation_queue
        ++ [⟨db.next_reservation_id, t0 + db.timeout⟩] := by
      rw [hdb1]
    have hlook : lookupRes db1.reservations db.next_reservation_id
        = some { event_id := event_id, ticket_count := ticket_count,
                 cookie := generate_cookie db.next_reservation_id,
                 ticket_min := db.base_ticket, received := false } := by
      rw [hres1]
      exact lookupRes_append_of_none _ _ _ hfresh
    have hcnt : countKey db1.reservations db.next_reservation_id ≤ 1 := by
      rw [hres1, countKey_append, lookup_none_countKey _ _ hfresh, countKey_cons]
      simp [countKey]
    have hexp1 : ∀ q ∈ db1.reservation_queue,
        q.expiration_time < t0 + db.timeout + 1 := by
      rw [hque1]
      intro q hq
      rcases List.mem_append.mp hq with hq1 | hq2
      · exact Nat.lt_succ_of_le (hqexp q hq1)
      · rw [List.mem_singleton] at hq2
        subst hq2
        show t0 + db.timeout < t0 + db.timeout + 1
        omega
    have hnone : lookupRes
        (clean_queue db1 (t0 + db.timeout + 1)).reservations db.next_reservation_id
        = none := by
      refine sweep_removes (t0 + db.timeout + 1) db.next_reservation_id
        db1.reservation_queue.length db1 (Nat.le_refl _) hexp1 hcnt (Or.inr ⟨?_, ?_⟩)
      · refine ⟨⟨db.next_reservation_id, t0 + db.timeout⟩, ?_, rfl⟩
        rw [hque1]
        exact List.mem_append_right _ (List.mem_singleton.mpr rfl)
      · exact ⟨_, hlook, rfl⟩
    have hridnm : r.reservation_id = db.next_reservation_id := by rw [hr]
    rw [hridnm]
    rcases get_tickets_cases db1 db.next_reservation_id ck (t0 + db.timeout + 1) with
      ⟨hn2, heq⟩ | ⟨w, hl, _, _⟩ | ⟨w, hl, _, _⟩
    · rw [heq]
    · rw [hnone] at hl; cases hl
    · rw [hnone] at hl; cases hl

/-- Witness for C8: on concrete states — an absent id yields not-found with
the swept state, a wrong 48-byte cookie yields invalid-cookie, and a
reservation made at t0=0 with timeout 5 redeemed at t=6 is gone. -/
theorem C8_redeem_failure_modes_witness :
    get_tickets dbW4 5 (List.replicate 48 33) 7
      = (.error .ReservationNotFound, clean_queue dbW4 7) ∧
    get_tickets dbRcv 10000000 (List.replicate 48 33) 7
      = (.error .InvalidCookie, clean_queue dbRcv 7) ∧
    (get_tickets db1C2 10000000 (List.replicate 48 33) 2).1
      = .error .ReservationNotFound := by
  refine ⟨?_, ?_, ?_⟩
  · exact (C8_redeem_failure_modes dbW4 5 (List.replicate 48 33) 7).1 (by decide)
  · exact (C8_redeem_failure_modes dbRcv 10000000 (List.replicate 48 33) 7).2.1
      { event_id := 0, ticket_count := 2, cookie := generate_cookie 10000000,
        ticket_min := List.replicate 7 48, received := false }
      (by decide) (by decide)
  · exact (C8_redeem_failure_modes db0C2 10000000 (List.replicate 48 33) 0).2.2
      0 1 0 resC2 db1C2 rfl (by decide) (by decide)

/-! ### Cookie generator: injectivity and byte range -/

theorem map_eq_imp {f g : Nat → Nat} : ∀ (l : List Nat),
    l.map f = l.map g → ∀ x ∈ l, f x = g x := by
  intro l
  induction l with
  | nil => intro _ x hx; cases hx
  | cons a t ih =>
    intro h x hx
    rw [List.map_cons, List.map_cons, List.cons.injEq] at h
    rcases List.mem_cons.mp hx with h1 | h2
    · exact h1 ▸ h.1
    · exact ih h.2 x h2

theorem SP_pos_le : ∀ i, i < 24 →
    0 < SMALL_PRIMES.getD i 1 ∧ SMALL_PRIMES.getD i 1 ≤ 89 := by decide

/-- C7: the cookie generator is deterministic (it is a function), injective
on 32-bit reservation ids (distinct ids give cookies differing in at least
one byte), and every cookie byte lies in `[33, 122]`. -/
theorem C7_cookie_generator :
    (∀ a b : Nat, a < 2 ^ 32 → b < 2 ^ 32 → a ≠ b →
      generate_cookie a ≠ generate_cookie b) ∧
    (∀ reservation_id : Nat, ∀ c ∈ generate_cookie reservation_id,
      MIN_COOKIE_CHAR ≤ c ∧ c ≤ 122) := by
  constructor
  · intro a b ha hb hab hEq
    unfold generate_cookie at hEq
    have hbytes : ∀ i, i < COOKIE_LEN → cookieByte a i = cookieByte b i :=
      fun i hi => map_eq_imp _ hEq i (List.mem_range.mpr hi)
    have hres : ∀ i, i < 24 →
        a % SMALL_PRIMES.getD i 1 = b % SMALL_PRIMES.getD i 1 := by
      intro i hi
      have h := hbytes i (by unfold COOKIE_LEN; omega)
      unfold cookieByte at h
      rw [if_pos (show i < COOKIE_LEN / 2 by unfold COOKIE_LEN; omega),
          if_pos (show i < COOKIE_LEN / 2 by unfold COOKIE_LEN; omega)] at h
      unfold MIN_COOKIE_CHAR at h
      omega
    have m2 : a ≡ b [MOD 2] := hres 0 (by omega)
    have m3 : a ≡ b [MOD 3] := hres 1 (by omega)
    have m5 : a ≡ b [MOD 5] := hres 2 (by omega)
    have m7 : a ≡ b [MOD 7] := hres 3 (by omega)
    have m11 : a ≡ b [MOD 11] := hres 4 (by omega)
    have m13 : a ≡ b [MOD 13] := hres 5 (by omega)
    have m17 : a ≡ b [MOD 17] := hres 6 (by omega)
    have m19 : a ≡ b [MOD 19] := hres 7 (by omega)
    have m23 : a ≡ b [MOD 23] := hres 8 (by omega)
    have m29 : a ≡ b [MOD 29] := hres 9 (by omega)
    have c1 : Nat.Coprime 2 3 := by decide
    have c2 : Nat.Coprime 6 5 := by decide
    have c3 : Nat.Coprime 30 7 := by decide
    have c4 : Nat.Coprime 210 11 := by decide
    have c5 : Nat.Coprime 2310 13 := by decide
    have c6 : Nat.Coprime 30030 17 := by decide
    have c7 : Nat.Coprime 510510 19 := by decide
    have c8 : Nat.Coprime 9699690 23 := by decide
    have c9 : Nat.Coprime 223092870 29 := by decide
    have k1 : a ≡ b [MOD 6] := (Nat.modEq_and_modEq_iff_modEq_mul c1).mp ⟨m2, m3⟩
    have k2 : a ≡ b [MOD 30] := (Nat.modEq_and_modEq_iff_modEq_mul c2).mp ⟨k1, m5⟩
    have k3 : a ≡ b [MOD 210] := (Nat.modEq_and_modEq_iff_modEq_mul c3).mp ⟨k2, m7⟩
    have k4 : a ≡ b [MOD 2310] := (Nat.modEq_and_modEq_iff_modEq_mul c4).mp ⟨k3, m11⟩
    have k5 : a ≡ b [MOD 30030] := (Nat.modEq_and_modEq_iff_modEq_mul c5).mp ⟨k4, m13⟩
    have k6 : a ≡ b [MOD 510510] :=
      (Nat.modEq_and_modEq_iff_modEq_mul c6).mp ⟨k5, m17⟩
    have k7 : a ≡ b [MOD 9699690] :=
      (Nat.modEq_and_modEq_iff_modEq_mul c7).mp ⟨k6, m19⟩
    have k8 : a ≡ b [MOD 223092870] :=
      (Nat.modEq_and_modEq_iff_modEq_mul c8).mp ⟨k7, m23⟩
    have k9 : a ≡ b [MOD 6469693230] :=
      (Nat.modEq_and_modEq_iff_modEq_mul c9).mp ⟨k8, m29⟩
    have hpow : (2 : Nat) ^ 32 = 4294967296 := by norm_num
    have heq : a % 6469693230 = b % 6469693230 := k9
    rw [Nat.mod_eq_of_lt (by omega), Nat.mod_eq_of_lt (by omega)] at heq
    exact hab heq
  · intro reservation_id c hc
    unfold generate_cookie at hc
    obtain ⟨i, hi, rfl⟩ := List.mem_map.mp hc
    rw [List.mem_range] at hi
    unfold cookieByte MIN_COOKIE_CHAR
    by_cases h24 : i < COOKIE_LEN / 2
    · rw [if_pos h24]
      have hsp := SP_pos_le i (by unfold COOKIE_LEN at h24; omega)
      have hlt : reservation_id % SMALL_PRIMES.getD i 1 < SMALL_PRIMES.getD i 1 :=
        Nat.mod_lt _ hsp.1
      omega
    · rw [if_neg h24]
      have h24' : i - COOKIE_LEN / 2 < 24 := by
        unfold COOKIE_LEN at hi h24 ⊢
        omega
      have hsp := SP_pos_le _ h24'
      have hlt : ((reservation_id + 1) % 2 ^ 32) * PRIMES.getD i 1
          % SMALL_PRIMES.getD (i - COOKIE_LEN / 2) 1
          < SMALL_PRIMES.getD (i - COOKIE_LEN / 2) 1 :=
        Nat.mod_lt _ hsp.1
      omega

/-- Witness for C7: two concrete legal ids get different cookies, and a
concrete cookie byte is in range. -/
theorem C7_cookie_generator_witness :
    generate_cookie 10000000 ≠ generate_cookie 10000001 ∧
    (MIN_COOKIE_CHAR ≤ (generate_cookie 10000000).getD 0 0 ∧
      (generate_cookie 10000000).getD 0 0 ≤ 122) := by
  have h := C7_cookie_generator
  exact ⟨h.1 10000000 10000001 (by decide) (by decide) (by decide),
    h.2 10000000 ((generate_cookie 10000000).getD 0 0) (by decide)⟩
